import Mathlib

set_option maxRecDepth 100000

/-!
Verification of the inventory agent service
(`src/inventoryagentservice/inventory_agent_service.py`).

The numeric core of the service is embedded shallowly over `ℚ`:

* Python floats are modelled as exact rationals; every decimal constant of
  the source (`0.3`, `1.96`, ...) becomes the corresponding rational.
* Python's `int(...)` conversion truncates toward zero; it is modelled by
  `pyInt` below (it is not rounding to the nearest integer).
* The random draws consumed by `random.randint`, `random.uniform`,
  `random.random` and `random.choice` are passed as explicit parameters, so
  every reachable run of the service corresponds to an instantiation of
  those parameters.
* `np.std` returns the square root of the population variance, which is in
  general irrational; the value it returns is passed to `forecast_demand`
  as the parameter `std_dev`, and theorems characterise it by
  `0 ≤ std_dev ∧ std_dev ^ 2 = popVariance sales`.
* The calls to the external language model return free text; that text is
  passed in as a `String` parameter (`ai_response` / `ai_reasoning`).  In
  the HTTP layer the fallible engine calls are modelled with `Except`.
* `1.0 - (forecast_uncertainty / demand_forecast.predicted_demand)` raises
  `ZeroDivisionError` in Python when `predicted_demand` is zero, so
  `generate_recommendation` returns an `Option`, with `none` for that
  error.
-/

namespace InventoryAgentService

/-- Python's `int(x)` conversion of a float: truncation toward zero. -/
def pyInt (q : ℚ) : ℤ := if 0 ≤ q then ⌊q⌋ else ⌈q⌉

/-- `np.mean`: the sum divided by the length (`0` for the empty list,
where NumPy would produce `NaN`; every use in the service is on a
non-empty list). -/
def npMean (xs : List ℚ) : ℚ := xs.sum / (xs.length : ℚ)

/-- The population variance of a list, i.e. the square of `np.std`
(NumPy's default `ddof = 0`). -/
def popVariance (xs : List ℚ) : ℚ := npMean (xs.map (fun x => (x - npMean xs) ^ 2))

/-- One entry of the mock historical sales data built by
`generate_mock_sales_data`.  The `date` field of the Python dict is never
read by any computation and is omitted. -/
structure SalesPoint where
  product_id : String
  sales : ℕ
  day_of_week : ℕ
deriving Repr, DecidableEq

/-- `DemandForecastingEngine.generate_mock_sales_data`.  `base_demand`
stands for `random.randint(10, 100)`; `trend_draws` and `noise_draws` hold
the per-day `random.uniform(-0.3, 0.3)` and `random.uniform(0.7, 1.3)`
draws (`List.getD` supplies the i-th draw). -/
def generate_mock_sales_data (product_id : String) (base_demand : ℤ)
    (trend_draws noise_draws : List ℚ) (days : ℕ) : List SalesPoint :=
  (List.range days).map fun (i : ℕ) =>
    let day_of_week : ℕ := i % 7
    let weekly_multiplier : ℚ := if day_of_week = 5 ∨ day_of_week = 6 then 6/5 else 9/10
    let trend : ℚ := 1 + ((i : ℚ) / (days : ℚ)) * trend_draws.getD i 0
    let noise : ℚ := noise_draws.getD i 1
    let demand : ℤ := pyInt ((base_demand : ℚ) * weekly_multiplier * trend * noise)
    { product_id := product_id, sales := (max 0 demand).toNat, day_of_week := day_of_week }

/-- The `impact_map` dict of `ExternalDataCollector._calculate_weather_impact`;
`none` models a condition string that is not a key of the dict. -/
def impact_map (condition : String) : Option ℚ :=
  if condition = "sunny" then some (1/10)
  else if condition = "rainy" then some (3/10)
  else if condition = "cloudy" then some 0
  else if condition = "snowy" then some (2/5)
  else if condition = "stormy" then some (1/5)
  else none

/-- `ExternalDataCollector._calculate_weather_impact`: dict lookup with
default `0.0`, plus `0.2` for extreme temperatures, capped at `1.0`. -/
def _calculate_weather_impact (condition : String) (temperature : ℤ) : ℚ :=
  let base_impact := (impact_map condition).getD 0
  let base_impact := if temperature < 0 ∨ 30 < temperature then base_impact + 1/5 else base_impact
  min base_impact 1

/-- The dict returned by `ExternalDataCollector.get_weather_data`. -/
structure WeatherData where
  temperature : ℤ
  condition : String
  precipitation_chance : ℚ
  impact_score : ℚ
deriving Repr, DecidableEq

/-- `ExternalDataCollector.get_weather_data`; `temperature`, `condition`
and `precipitation` stand for the `random.randint(-10, 35)`,
`random.choice` and `random.random()` draws. -/
def get_weather_data (temperature : ℤ) (condition : String) (precipitation : ℚ) : WeatherData :=
  { temperature := temperature, condition := condition,
    precipitation_chance := precipitation,
    impact_score := _calculate_weather_impact condition temperature }

/-- The dict returned by `ExternalDataCollector.get_social_trends`
(five named draws). -/
structure SocialTrends where
  sustainable_fashion : ℚ
  outdoor_activities : ℚ
  work_from_home : ℚ
  tech_accessories : ℚ
  health_fitness : ℚ
deriving Repr, DecidableEq

/-- `social_trends.values()` in insertion order of the dict literal. -/
def SocialTrends.values (t : SocialTrends) : List ℚ :=
  [t.sustainable_fashion, t.outdoor_activities, t.work_from_home,
   t.tech_accessories, t.health_fitness]

/-- The dict returned by `ExternalDataCollector.get_economic_indicators`. -/
structure EconomicIndicators where
  consumer_confidence : ℚ
  unemployment_rate : ℚ
  inflation_rate : ℚ
  retail_spending_index : ℚ
deriving Repr, DecidableEq

/-- The `DemandForecast` dataclass.  The `external_signals` dict has
exactly the keys `weather_impact`, `social_impact`, `economic_impact`;
they are stored as three fields, and `DemandForecast.external_signals`
below rebuilds the dict as an association list. -/
structure DemandForecast where
  product_id : String
  forecast_period_days : ℤ
  predicted_demand : ℚ
  confidence_interval : ℚ × ℚ
  trend_direction : String
  seasonality_factor : ℚ
  weather_impact : ℚ
  social_impact : ℚ
  economic_impact : ℚ
deriving Repr, DecidableEq

/-- The `external_signals` dict of a `DemandForecast`, in insertion
order. -/
def DemandForecast.external_signals (df : DemandForecast) : List (String × ℚ) :=
  [("weather_impact", df.weather_impact),
   ("social_impact", df.social_impact),
   ("economic_impact", df.economic_impact)]

/-- The slope returned by `scipy.stats.linregress(x, sales_values)` with
`x = np.arange(len(sales_values))`: the ordinary least-squares slope
`(n·Σxy − Σx·Σy) / (n·Σx² − (Σx)²)`. -/
def linregress_slope (ys : List ℚ) : ℚ :=
  let n : ℚ := (ys.length : ℚ)
  let xs : List ℚ := (List.range ys.length).map (fun i => (i : ℚ))
  let sx := xs.sum
  let sy := ys.sum
  let sxy := ((xs.zip ys).map (fun p => p.1 * p.2)).sum
  let sxx := (xs.map (fun x => x * x)).sum
  (n * sxy - sx * sy) / (n * sxx - sx * sx)

/-- `np.mean([item["sales"] for item in historical_data if
item["day_of_week"] in [5, 6]])`. -/
def weekend_avg (historical_data : List SalesPoint) : ℚ :=
  npMean ((historical_data.filter fun p => p.day_of_week == 5 || p.day_of_week == 6).map
    fun p => (p.sales : ℚ))

/-- `np.mean([item["sales"] for item in historical_data if
item["day_of_week"] not in [5, 6]])`. -/
def weekday_avg (historical_data : List SalesPoint) : ℚ :=
  npMean ((historical_data.filter fun p => !(p.day_of_week == 5 || p.day_of_week == 6)).map
    fun p => (p.sales : ℚ))

/-- `DemandForecastingEngine.forecast_demand`.  The parameters after
`forecast_days` are the random draws of the run (see the module comment);
`std_dev` is the value `np.std(sales_values)` returns, and `ai_response`
is the text returned by the language-model call, which the source code
never parses into the numeric fields. -/
def forecast_demand (product_id : String) (forecast_days : ℤ)
    (base_demand : ℤ) (trend_draws noise_draws : List ℚ)
    (temperature : ℤ) (condition : String) (precipitation : ℚ)
    (social_trends : SocialTrends) (economic_data : EconomicIndicators)
    (std_dev : ℚ) (ai_response : String) : DemandForecast :=
  let historical_data := generate_mock_sales_data product_id base_demand trend_draws noise_draws 30
  let weather_data := get_weather_data temperature condition precipitation
  let sales_values : List ℚ := historical_data.map fun p => (p.sales : ℚ)
  let recent_sales := sales_values.drop (sales_values.length - 7)
  let slope := linregress_slope sales_values
  let trend_direction :=
    if 0 < slope then "increasing" else if slope < 0 then "decreasing" else "stable"
  let seasonality_factor :=
    if 0 < weekday_avg historical_data then
      weekend_avg historical_data / weekday_avg historical_data
    else 1
  -- the prompt built from the data above is sent to the language model;
  -- its reply is the parameter `ai_response`, unused below
  let _ := ai_response
  let base_forecast := npMean recent_sales
  let weather_impact := weather_data.impact_score * (1/5)
  let social_impact := social_trends.values.sum / (social_trends.values.length : ℚ) * (1/10)
  let economic_impact := economic_data.consumer_confidence * (3/20)
  let adjusted_forecast := base_forecast * (1 + weather_impact + social_impact + economic_impact)
  let confidence_interval :=
    (max 0 (adjusted_forecast - 49/25 * std_dev), adjusted_forecast + 49/25 * std_dev)
  { product_id := product_id, forecast_period_days := forecast_days,
    predicted_demand := adjusted_forecast, confidence_interval := confidence_interval,
    trend_direction := trend_direction, seasonality_factor := seasonality_factor,
    weather_impact := weather_impact, social_impact := social_impact,
    economic_impact := economic_impact }

/-- The `InventoryRecommendation` dataclass. -/
structure InventoryRecommendation where
  product_id : String
  current_stock : ℤ
  recommended_stock : ℤ
  reorder_point : ℤ
  demand_forecast : ℚ
  confidence_score : ℚ
  reasoning : String
  external_factors : List String
deriving Repr, DecidableEq

/-- `InventoryOptimizer.generate_recommendation`.  `ai_reasoning` is the
text returned by the language-model call.  When `predicted_demand = 0`
the expression `forecast_uncertainty / demand_forecast.predicted_demand`
raises `ZeroDivisionError` in Python; that error outcome is `none`. -/
def generate_recommendation (product_id : String) (current_stock : ℤ)
    (demand_forecast : DemandForecast) (ai_reasoning : String) :
    Option InventoryRecommendation :=
  let safety_stock : ℤ := max 5 (pyInt (demand_forecast.predicted_demand * (3/10)))
  let lead_time_demand := demand_forecast.predicted_demand * (1/2)
  let reorder_point := pyInt (lead_time_demand + (safety_stock : ℚ))
  let forecast_uncertainty :=
    |demand_forecast.confidence_interval.2 - demand_forecast.confidence_interval.1|
  let buffer_stock := pyInt (forecast_uncertainty * (1/5))
  let recommended_stock := pyInt (demand_forecast.predicted_demand * (3/2) + (buffer_stock : ℚ))
  if demand_forecast.predicted_demand = 0 then
    none
  else
    let forecast_accuracy := 1 - forecast_uncertainty / demand_forecast.predicted_demand
    let confidence_score := min (19/20) (max (1/10) (forecast_accuracy * (4/5) + 1/5))
    let external_factors := demand_forecast.external_signals.filterMap fun fi =>
      if (1/10 : ℚ) < |fi.2| then
        some (fi.1 ++ " (" ++ (if 0 < fi.2 then "increasing" else "decreasing") ++ " demand)")
      else none
    some { product_id := product_id, current_stock := current_stock,
           recommended_stock := recommended_stock, reorder_point := reorder_point,
           demand_forecast := demand_forecast.predicted_demand,
           confidence_score := confidence_score, reasoning := ai_reasoning,
           external_factors := external_factors }

/-- Python truthiness of an optional string field of a JSON body:
`if not product_id` is false exactly for a present, non-empty string. -/
def pyTruthy : Option String → Bool
  | none => false
  | some s => !s.isEmpty

/-- The JSON body of `POST /forecast`. -/
structure ForecastRequest where
  product_id : Option String
  forecast_days : Option ℤ

/-- The HTTP outcome of the `/forecast` handler: a status code together
with either an error message (the `{"error": ...}` body) or a serialized
forecast. -/
inductive ForecastResponse where
  | err (status : ℕ) (error : String)
  | ok (forecast : DemandForecast)
deriving Repr, DecidableEq

/-- The `generate_forecast` Flask handler.  `engine` stands for
`agent.forecasting_engine.forecast_demand`, whose failure (e.g. of the
remote model call) is caught by the `try`/`except` and mapped to 500. -/
def generate_forecast (engine : String → ℤ → Except String DemandForecast)
    (body : ForecastRequest) : ForecastResponse :=
  let product_id := body.product_id
  let forecast_days := body.forecast_days.getD 7
  if !pyTruthy product_id then .err 400 "product_id is required"
  else
    match engine (product_id.getD "") forecast_days with
    | .ok forecast => .ok forecast
    | .error e => .err 500 e

/-- One entry of the `products` list of `POST /inventory/recommendations`. -/
structure ProductEntry where
  product_id : Option String
  current_stock : Option ℤ

/-- The JSON body of `POST /inventory/recommendations`. -/
structure RecommendationsRequest where
  products : Option (List ProductEntry)

/-- The HTTP outcome of the `/inventory/recommendations` handler. -/
inductive RecommendationsResponse where
  | err (status : ℕ) (error : String)
  | ok (recommendations : List InventoryRecommendation)
deriving Repr, DecidableEq

/-- The `for product_data in products` loop of the handler: entries with a
truthy `product_id` are processed (`agent.process_product`), the others
are skipped; the first exception aborts the whole batch. -/
def processAll (process : String → ℤ → Except String InventoryRecommendation) :
    List ProductEntry → Except String (List InventoryRecommendation)
  | [] => .ok []
  | p :: ps =>
    let current_stock := p.current_stock.getD 0
    if pyTruthy p.product_id then
      match process (p.product_id.getD "") current_stock with
      | .error e => .error e
      | .ok r => (processAll process ps).map (r :: ·)
    else processAll process ps

/-- The `get_inventory_recommendations` Flask handler.  `process` stands
for `agent.process_product`. -/
def get_inventory_recommendations
    (process : String → ℤ → Except String InventoryRecommendation)
    (body : RecommendationsRequest) : RecommendationsResponse :=
  let products := body.products.getD []
  if products.isEmpty then .err 400 "products list is required"
  else
    match processAll process products with
    | .ok recommendations => .ok recommendations
    | .error e => .err 500 e

/-!  Concrete inputs used by witnesses and counterexamples.  All values
are realizable draws of the service: `base_demand = 10 ∈ [10, 100]`, an
empty `trend_draws` list stands for per-day slope draws of `0 ∈ [-0.3, 0.3]`,
and the noise values `6/5` and `17/20` lie in `[0.7, 1.3]`.  With
`cNoises`, every weekday sale is `int(10 · 0.9 · 1.2) = 10` and every
weekend sale is `int(10 · 1.2 · 0.85) = 10`, so the synthesized series is
constant and its population standard deviation is `0`. -/

/-- Noise draws producing a constant sales series: `17/20` on the weekend
positions (`i % 7 ∈ {5, 6}`), `6/5` on weekdays. -/
def cNoises : List ℚ :=
  [6/5, 6/5, 6/5, 6/5, 6/5, 17/20, 17/20,
   6/5, 6/5, 6/5, 6/5, 6/5, 17/20, 17/20,
   6/5, 6/5, 6/5, 6/5, 6/5, 17/20, 17/20,
   6/5, 6/5, 6/5, 6/5, 6/5, 17/20, 17/20,
   6/5, 6/5]

/-- A forecast whose `predicted_demand` is zero (for the division in the
optimizer's confidence-score computation). -/
def dfZero : DemandForecast := ⟨"P1", 7, 0, (0, 0), "stable", 1, 0, 0, 0⟩

/-- A forecast with `predicted_demand = 10` and confidence interval
`(0, 3)`, on which truncation and round-to-nearest disagree. -/
def dfRound : DemandForecast := ⟨"P2", 7, 10, (0, 3), "stable", 1, 0, 0, 0⟩

/-- A forecast with small positive demand and zero-width confidence
interval, for which the reorder point exceeds the recommended stock. -/
def dfSmall : DemandForecast := ⟨"P3", 7, 2, (0, 0), "stable", 1, 0, 0, 0⟩

/-- Social-trend draws of zero (each draw is `random.random()`-scaled, so
zero is realizable). -/
def socialZero : SocialTrends := ⟨0, 0, 0, 0, 0⟩

/-- Economic-indicator draws at the low end of their documented ranges. -/
def econBase : EconomicIndicators := ⟨3/10, 3/100, 1/100, 1⟩

/-- An engine stub whose remote model call fails. -/
def engineFail : String → ℤ → Except String DemandForecast :=
  fun _ _ => .error "model unavailable"

/-- A per-product processing stub whose remote model call fails. -/
def processFail : String → ℤ → Except String InventoryRecommendation :=
  fun _ _ => .error "model unavailable"

/-! Helper lemmas. -/

/-- The `impact_map` lookup with default `0.0` lies in `[0, 2/5]` for
every condition string. -/
lemma impact_map_getD_bounds (condition : String) :
    0 ≤ (impact_map condition).getD 0 ∧ (impact_map condition).getD 0 ≤ 2/5 := by
  unfold impact_map
  split_ifs <;> simp <;> norm_num

/-- The weather impact score is nonnegative for every condition and
temperature. -/
lemma weather_impact_nonneg (condition : String) (temperature : ℤ) :
    0 ≤ _calculate_weather_impact condition temperature := by
  unfold _calculate_weather_impact
  have h := impact_map_getD_bounds condition
  split_ifs <;> (apply le_min (by linarith) (by norm_num))

/-- `np.mean` of a list of nonnegative values is nonnegative. -/
lemma npMean_nonneg (xs : List ℚ) (h : ∀ x ∈ xs, 0 ≤ x) : 0 ≤ npMean xs :=
  div_nonneg (List.sum_nonneg h) (by positivity)

/-! Claim theorems. -/

/-- Claim C5: for every condition string and every integer temperature in
`[-10, 35]`, `_calculate_weather_impact` returns the per-condition lookup
value (`sunny ↦ 1/10`, `rainy ↦ 3/10`, `cloudy ↦ 0`, `snowy ↦ 2/5`,
`stormy ↦ 1/5`, default `0`), plus `1/5` when the temperature is below `0`
or above `30`, capped at `1`, and the result always lies in `[0, 1]`. -/
theorem weather_impact_formula_and_unit_interval (condition : String) (temperature : ℤ)
    (_hlo : -10 ≤ temperature) (_hhi : temperature ≤ 35) :
    _calculate_weather_impact condition temperature =
      min ((impact_map condition).getD 0 +
        (if temperature < 0 ∨ 30 < temperature then 1/5 else 0)) 1 ∧
    impact_map "sunny" = some (1/10) ∧ impact_map "rainy" = some (3/10) ∧
    impact_map "cloudy" = some 0 ∧ impact_map "snowy" = some (2/5) ∧
    impact_map "stormy" = some (1/5) ∧
    0 ≤ _calculate_weather_impact condition temperature ∧
    _calculate_weather_impact condition temperature ≤ 1 := by
  refine ⟨?_, rfl, rfl, rfl, rfl, rfl, weather_impact_nonneg condition temperature, ?_⟩
  · unfold _calculate_weather_impact
    split_ifs <;> ring_nf
  · unfold _calculate_weather_impact
    split_ifs <;> exact min_le_right _ _

/-- Witness for C5 at `condition = "snowy"`, `temperature = -10` (the
extreme-temperature bonus applies and the impact evaluates to `3/5`). -/
theorem weather_impact_formula_and_unit_interval_witness :
    ((-10 : ℤ) ≤ -10 ∧ (-10 : ℤ) ≤ 35) ∧
    _calculate_weather_impact "snowy" (-10) = 3/5 ∧
    (0 ≤ _calculate_weather_impact "snowy" (-10) ∧
      _calculate_weather_impact "snowy" (-10) ≤ 1) :=
  ⟨⟨by norm_num, by norm_num⟩, by with_unfolding_all rfl,
    (weather_impact_formula_and_unit_interval "snowy" (-10)
      (by norm_num) (by norm_num)).2.2.2.2.2.2⟩

/-- Claim C1 (code bug): the division in
`forecast_accuracy = 1.0 - (forecast_uncertainty / predicted_demand)` is
NOT guarded: at `predicted_demand = 0` the Python code raises
`ZeroDivisionError` (modelled as `none`) instead of treating the case as
minimal accuracy and returning a confidence score in `[0.1, 0.95]`. -/
theorem confidence_division_unguarded_at_zero_demand :
    generate_recommendation "P1" 0 dfZero "" = none := by
  with_unfolding_all rfl

/-- Counterexample to claim C2 as stated: with `predicted_demand = 10`
and confidence interval `(0, 3)`, the code (Python `int`, truncation)
returns `recommended_stock = 15`, while the claim's round-to-nearest
formula `round(10 × 1.5 + round(3 × 0.2)) = round(10 × 1.5 + 1)` gives
`16`. -/
theorem optimizer_round_to_nearest_counterexample :
    (generate_recommendation "P2" 0 dfRound "").map (fun r => r.recommended_stock) =
      some 15 ∧
    round (dfRound.predicted_demand * (3/2) +
      ((round (|dfRound.confidence_interval.2 - dfRound.confidence_interval.1| * (1/5)) : ℤ) :
        ℚ)) = (16 : ℤ) := by
  constructor
  · with_unfolding_all rfl
  · with_unfolding_all rfl

/-- Claim C2 amended: for every `DemandForecast` on which the optimizer
returns at all (`predicted_demand ≠ 0`; at zero it raises), the returned
values follow the claimed formulas with Python `int` truncation toward
zero in place of round-to-nearest:
`reorder_point = trunc(predicted_demand × 0.5 + max(5, trunc(predicted_demand × 0.3)))`
and
`recommended_stock = trunc(predicted_demand × 1.5 + trunc(|high − low| × 0.2))`. -/
theorem optimizer_truncation_formulas (product_id : String) (current_stock : ℤ)
    (df : DemandForecast) (ai_reasoning : String) (h : df.predicted_demand ≠ 0) :
    (generate_recommendation product_id current_stock df ai_reasoning).map
        (fun r => (r.reorder_point, r.recommended_stock)) =
      some
        (pyInt (df.predicted_demand * (1/2) +
          ((max 5 (pyInt (df.predicted_demand * (3/10))) : ℤ) : ℚ)),
         pyInt (df.predicted_demand * (3/2) +
          ((pyInt (|df.confidence_interval.2 - df.confidence_interval.1| * (1/5)) : ℤ) : ℚ))) := by
  unfold generate_recommendation
  rw [if_neg h]
  rfl

/-- Witness for the amended C2 at `dfRound` (`predicted_demand = 10`,
interval `(0, 3)`): the optimizer returns `reorder_point = 10` and
`recommended_stock = 15`. -/
theorem optimizer_truncation_formulas_witness :
    dfRound.predicted_demand ≠ 0 ∧
    (generate_recommendation "P2" 0 dfRound "").map
        (fun r => (r.reorder_point, r.recommended_stock)) = some (10, 15) := by
  refine ⟨by norm_num [dfRound], ?_⟩
  rw [optimizer_truncation_formulas "P2" 0 dfRound "" (by norm_num [dfRound])]
  with_unfolding_all rfl

/-- Claim C8: `reorder_point ≤ recommended_stock` is not guaranteed: for
the forecast `dfSmall` (small positive predicted demand `2`, zero-width
confidence interval) the optimizer returns `recommended_stock = 3` but
`reorder_point = 6`. -/
theorem reorder_point_can_exceed_recommended_stock :
    ∃ (df : DemandForecast) (rec : InventoryRecommendation),
      generate_recommendation "P3" 0 df "" = some rec ∧
      0 < df.predicted_demand ∧
      df.confidence_interval.2 - df.confidence_interval.1 = 0 ∧
      rec.recommended_stock < rec.reorder_point := by
  refine ⟨dfSmall, ⟨"P3", 0, 3, 6, 2, 19/20, "", []⟩, ?_, ?_, ?_, ?_⟩
  · with_unfolding_all rfl
  · norm_num [dfSmall]
  · norm_num [dfSmall]
  · norm_num

/-- Claim C3: the `DemandForecast` returned by `forecast_demand` is fully
determined by the synthesized sales data (the `base_demand`, trend and
noise draws) and the external signals: two runs that differ only in the
text returned by the language-model call return the same value. -/
theorem forecast_independent_of_model_reply (product_id : String) (forecast_days : ℤ)
    (base_demand : ℤ) (trend_draws noise_draws : List ℚ) (temperature : ℤ)
    (condition : String) (precipitation : ℚ) (social_trends : SocialTrends)
    (economic_data : EconomicIndicators) (std_dev : ℚ) (reply₁ reply₂ : String) :
    forecast_demand product_id forecast_days base_demand trend_draws noise_draws
        temperature condition precipitation social_trends economic_data std_dev reply₁ =
      forecast_demand product_id forecast_days base_demand trend_draws noise_draws
        temperature condition precipitation social_trends economic_data std_dev reply₂ :=
  rfl

/-- Claim C10: `forecast_days` influences only the `forecast_period_days`
field of the returned forecast (and the prompt text): for any two values
of `forecast_days` and the same random draws, every other returned field
is identical, and the base forecast is always the mean of the last 7 of
the 30 synthesized values. -/
theorem forecast_days_only_affects_period_field (product_id : String)
    (base_demand : ℤ) (trend_draws noise_draws : List ℚ) (temperature : ℤ)
    (condition : String) (precipitation : ℚ) (social_trends : SocialTrends)
    (economic_data : EconomicIndicators) (std_dev : ℚ) (reply : String)
    (days₁ days₂ : ℤ) :
    (forecast_demand product_id days₁ base_demand trend_draws noise_draws
        temperature condition precipitation social_trends economic_data std_dev
        reply).predicted_demand =
      (forecast_demand product_id days₂ base_demand trend_draws noise_draws
        temperature condition precipitation social_trends economic_data std_dev
        reply).predicted_demand ∧
    (forecast_demand product_id days₁ base_demand trend_draws noise_draws
        temperature condition precipitation social_trends economic_data std_dev
        reply).confidence_interval =
      (forecast_demand product_id days₂ base_demand trend_draws noise_draws
        temperature condition precipitation social_trends economic_data std_dev
        reply).confidence_interval ∧
    (forecast_demand product_id days₁ base_demand trend_draws noise_draws
        temperature condition precipitation social_trends economic_data std_dev
        reply).trend_direction =
      (forecast_demand product_id days₂ base_demand trend_draws noise_draws
        temperature condition precipitation social_trends economic_data std_dev
        reply).trend_direction ∧
    (forecast_demand product_id days₁ base_demand trend_draws noise_draws
        temperature condition precipitation social_trends economic_data std_dev
        reply).seasonality_factor =
      (forecast_demand product_id days₂ base_demand trend_draws noise_draws
        temperature condition precipitation social_trends economic_data std_dev
        reply).seasonality_factor ∧
    (forecast_demand product_id days₁ base_demand trend_draws noise_draws
        temperature condition precipitation social_trends economic_data std_dev
        reply).external_signals =
      (forecast_demand product_id days₂ base_demand trend_draws noise_draws
        temperature condition precipitation social_trends economic_data std_dev
        reply).external_signals ∧
    (forecast_demand product_id days₁ base_demand trend_draws noise_draws
        temperature condition precipitation social_trends economic_data std_dev
        reply).forecast_period_days = days₁ ∧
    (forecast_demand product_id days₁ base_demand trend_draws noise_draws
        temperature condition precipitation social_trends economic_data std_dev
        reply).predicted_demand =
      npMean (((generate_mock_sales_data product_id base_demand trend_draws noise_draws
          30).map fun p => (p.sales : ℚ)).drop
            (((generate_mock_sales_data product_id base_demand trend_draws noise_draws
              30).map fun p => (p.sales : ℚ)).length - 7)) *
        (1 + _calculate_weather_impact condition temperature * (1/5) +
          social_trends.values.sum / (social_trends.values.length : ℚ) * (1/10) +
          economic_data.consumer_confidence * (3/20)) :=
  ⟨rfl, rfl, rfl, rfl, rfl, rfl, rfl⟩

/-- Claim C6: the trend direction returned by `forecast_demand` is
`"stable"` iff the least-squares slope fitted over the 30 synthesized
sales values is exactly `0`, `"increasing"` iff it is positive, and
`"decreasing"` iff it is negative. -/
theorem trend_direction_iff_slope_sign (product_id : String) (forecast_days : ℤ)
    (base_demand : ℤ) (trend_draws noise_draws : List ℚ) (temperature : ℤ)
    (condition : String) (precipitation : ℚ) (social_trends : SocialTrends)
    (economic_data : EconomicIndicators) (std_dev : ℚ) (reply : String) :
    ((forecast_demand product_id forecast_days base_demand trend_draws noise_draws
        temperature condition precipitation social_trends economic_data std_dev
        reply).trend_direction = "stable" ↔
      linregress_slope ((generate_mock_sales_data product_id base_demand trend_draws
        noise_draws 30).map fun p => (p.sales : ℚ)) = 0) ∧
    ((forecast_demand product_id forecast_days base_demand trend_draws noise_draws
        temperature condition precipitation social_trends economic_data std_dev
        reply).trend_direction = "increasing" ↔
      0 < linregress_slope ((generate_mock_sales_data product_id base_demand trend_draws
        noise_draws 30).map fun p => (p.sales : ℚ))) ∧
    ((forecast_demand product_id forecast_days base_demand trend_draws noise_draws
        temperature condition precipitation social_trends economic_data std_dev
        reply).trend_direction = "decreasing" ↔
      linregress_slope ((generate_mock_sales_data product_id base_demand trend_draws
        noise_draws 30).map fun p => (p.sales : ℚ)) < 0) := by
  have hdir : (forecast_demand product_id forecast_days base_demand trend_draws noise_draws
      temperature condition precipitation social_trends economic_data std_dev
      reply).trend_direction =
      (if 0 < linregress_slope ((generate_mock_sales_data product_id base_demand trend_draws
          noise_draws 30).map fun p => (p.sales : ℚ)) then "increasing"
        else if linregress_slope ((generate_mock_sales_data product_id base_demand trend_draws
          noise_draws 30).map fun p => (p.sales : ℚ)) < 0 then "decreasing"
        else "stable") := rfl
  rcases lt_trichotomy (linregress_slope ((generate_mock_sales_data product_id base_demand
      trend_draws noise_draws 30).map fun p => (p.sales : ℚ))) 0 with h | h | h
  · rw [hdir, if_neg (by linarith), if_pos h]
    refine ⟨⟨fun heq => absurd heq (by decide), fun h0 => absurd h (by rw [h0]; exact lt_irrefl 0)⟩,
      ⟨fun heq => absurd heq (by decide), fun hpos => absurd hpos (by linarith)⟩,
      ⟨fun _ => h, fun _ => rfl⟩⟩
  · rw [hdir, if_neg (by rw [h]; exact lt_irrefl 0), if_neg (by rw [h]; exact lt_irrefl 0)]
    exact ⟨⟨fun _ => h, fun _ => rfl⟩,
      ⟨fun heq => absurd heq (by decide), fun hpos => absurd hpos (by rw [h]; exact lt_irrefl 0)⟩,
      ⟨fun heq => absurd heq (by decide), fun hneg => absurd hneg (by rw [h]; exact lt_irrefl 0)⟩⟩
  · rw [hdir, if_pos h]
    exact ⟨⟨fun heq => absurd heq (by decide), fun h0 => absurd h (by rw [h0]; exact lt_irrefl 0)⟩,
      ⟨fun _ => h, fun _ => rfl⟩,
      ⟨fun heq => absurd heq (by decide), fun hneg => absurd hneg (by linarith)⟩⟩

/-- Counterexample to claim C7 as stated: the seasonality factor is not
`1.0` only when the weekday mean is `0`.  For the realizable run with
`base_demand = 10`, zero trend draws and noises `cNoises`, every
synthesized sale equals `10`, so the weekday mean is `10 ≠ 0`, yet
`seasonality_factor = 10 / 10 = 1`. -/
theorem seasonality_one_with_positive_weekday_mean :
    (forecast_demand "P1" 7 10 [] cNoises 20 "cloudy" 0 socialZero econBase 0
      "").seasonality_factor = 1 ∧
    weekday_avg (generate_mock_sales_data "P1" 10 [] cNoises 30) ≠ 0 := by
  constructor
  · with_unfolding_all rfl
  · have h : weekday_avg (generate_mock_sales_data "P1" 10 [] cNoises 30) = 10 := by
      with_unfolding_all rfl
    rw [h]
    norm_num

/-- Claim C7 amended: the seasonality factor equals
`mean(weekend sales) / mean(weekday sales)` whenever the weekday mean is
positive, and defaults to `1.0` whenever the weekday mean is `0` (the
converse is false: a series with equal positive weekend and weekday means
also yields `1.0`). -/
theorem seasonality_factor_cases (product_id : String) (forecast_days : ℤ)
    (base_demand : ℤ) (trend_draws noise_draws : List ℚ) (temperature : ℤ)
    (condition : String) (precipitation : ℚ) (social_trends : SocialTrends)
    (economic_data : EconomicIndicators) (std_dev : ℚ) (reply : String) :
    (weekday_avg (generate_mock_sales_data product_id base_demand trend_draws
        noise_draws 30) = 0 →
      (forecast_demand product_id forecast_days base_demand trend_draws noise_draws
        temperature condition precipitation social_trends economic_data std_dev
        reply).seasonality_factor = 1) ∧
    (0 < weekday_avg (generate_mock_sales_data product_id base_demand trend_draws
        noise_draws 30) →
      (forecast_demand product_id forecast_days base_demand trend_draws noise_draws
        temperature condition precipitation social_trends economic_data std_dev
        reply).seasonality_factor =
        weekend_avg (generate_mock_sales_data product_id base_demand trend_draws
          noise_draws 30) /
        weekday_avg (generate_mock_sales_data product_id base_demand trend_draws
          noise_draws 30)) := by
  have hsf : (forecast_demand product_id forecast_days base_demand trend_draws noise_draws
      temperature condition precipitation social_trends economic_data std_dev
      reply).seasonality_factor =
      (if 0 < weekday_avg (generate_mock_sales_data product_id base_demand trend_draws
          noise_draws 30) then
        weekend_avg (generate_mock_sales_data product_id base_demand trend_draws
          noise_draws 30) /
        weekday_avg (generate_mock_sales_data product_id base_demand trend_draws
          noise_draws 30)
      else 1) := rfl
  constructor
  · intro h
    rw [hsf, if_neg (by rw [h]; exact lt_irrefl 0)]
  · intro h
    rw [hsf, if_pos h]

/-- Witness for the amended C7: with `base_demand = 10` and default draws
(empty lists: zero trend, unit noise) the weekday sales are `9`, the
weekend sales are `12`, and the factor evaluates to `12 / 9 = 4/3`. -/
theorem seasonality_factor_cases_witness :
    0 < weekday_avg (generate_mock_sales_data "P1" 10 [] [] 30) ∧
    (forecast_demand "P1" 7 10 [] [] 20 "cloudy" 0 socialZero econBase 0
      "").seasonality_factor = 4/3 := by
  have h9 : weekday_avg (generate_mock_sales_data "P1" 10 [] [] 30) = 9 := by
    with_unfolding_all rfl
  have hpos : 0 < weekday_avg (generate_mock_sales_data "P1" 10 [] [] 30) := by
    rw [h9]; norm_num
  refine ⟨hpos, ?_⟩
  rw [(seasonality_factor_cases "P1" 7 10 [] [] 20 "cloudy" 0 socialZero econBase 0
    "").2 hpos]
  with_unfolding_all rfl

/-- Claim C4: for every synthesized 30-value sales series and every run of
`forecast_demand` (with the signal draws in their documented nonnegative
ranges and `std_dev` the population standard deviation of the series,
characterised by `0 ≤ std_dev` and `std_dev ^ 2 = popVariance`), the
returned confidence interval is
`(max 0 (predicted_demand − 1.96·σ), predicted_demand + 1.96·σ)` and
satisfies `low ≤ high` and `0 ≤ low`. -/
theorem confidence_interval_formula_and_bounds (product_id : String) (forecast_days : ℤ)
    (base_demand : ℤ) (trend_draws noise_draws : List ℚ) (temperature : ℤ)
    (condition : String) (precipitation : ℚ) (social_trends : SocialTrends)
    (economic_data : EconomicIndicators) (std_dev : ℚ) (reply : String)
    (h₁ : 0 ≤ social_trends.sustainable_fashion)
    (h₂ : 0 ≤ social_trends.outdoor_activities)
    (h₃ : 0 ≤ social_trends.work_from_home)
    (h₄ : 0 ≤ social_trends.tech_accessories)
    (h₅ : 0 ≤ social_trends.health_fitness)
    (h₆ : 0 ≤ economic_data.consumer_confidence)
    (hσ : 0 ≤ std_dev)
    (_hvar : std_dev ^ 2 = popVariance ((generate_mock_sales_data product_id base_demand
      trend_draws noise_draws 30).map fun p => (p.sales : ℚ))) :
    (forecast_demand product_id forecast_days base_demand trend_draws noise_draws
        temperature condition precipitation social_trends economic_data std_dev
        reply).confidence_interval =
      (max 0 ((forecast_demand product_id forecast_days base_demand trend_draws noise_draws
          temperature condition precipitation social_trends economic_data std_dev
          reply).predicted_demand - 49/25 * std_dev),
        (forecast_demand product_id forecast_days base_demand trend_draws noise_draws
          temperature condition precipitation social_trends economic_data std_dev
          reply).predicted_demand + 49/25 * std_dev) ∧
    (forecast_demand product_id forecast_days base_demand trend_draws noise_draws
        temperature condition precipitation social_trends economic_data std_dev
        reply).confidence_interval.1 ≤
      (forecast_demand product_id forecast_days base_demand trend_draws noise_draws
        temperature condition precipitation social_trends economic_data std_dev
        reply).confidence_interval.2 ∧
    0 ≤ (forecast_demand product_id forecast_days base_demand trend_draws noise_draws
        temperature condition precipitation social_trends economic_data std_dev
        reply).confidence_interval.1 := by
  have hpd : 0 ≤ (forecast_demand product_id forecast_days base_demand trend_draws
      noise_draws temperature condition precipitation social_trends economic_data std_dev
      reply).predicted_demand := by
    show 0 ≤ npMean (((generate_mock_sales_data product_id base_demand trend_draws
        noise_draws 30).map fun p => (p.sales : ℚ)).drop
          (((generate_mock_sales_data product_id base_demand trend_draws noise_draws
            30).map fun p => (p.sales : ℚ)).length - 7)) *
        (1 + _calculate_weather_impact condition temperature * (1/5) +
          social_trends.values.sum / (social_trends.values.length : ℚ) * (1/10) +
          economic_data.consumer_confidence * (3/20))
    apply mul_nonneg
    · apply npMean_nonneg
      intro x hx
      have hx' := List.drop_subset _ _ hx
      obtain ⟨p, _, rfl⟩ := List.mem_map.mp hx'
      positivity
    · have hw := weather_impact_nonneg condition temperature
      have hs : 0 ≤ social_trends.values.sum / (social_trends.values.length : ℚ) := by
        apply div_nonneg _ (by positivity)
        simp only [SocialTrends.values, List.sum_cons, List.sum_nil]
        linarith
      nlinarith
  have hσ' : 0 ≤ 49/25 * std_dev := by positivity
  have hci : (forecast_demand product_id forecast_days base_demand trend_draws noise_draws
      temperature condition precipitation social_trends economic_data std_dev
      reply).confidence_interval =
      (max 0 ((forecast_demand product_id forecast_days base_demand trend_draws noise_draws
          temperature condition precipitation social_trends economic_data std_dev
          reply).predicted_demand - 49/25 * std_dev),
        (forecast_demand product_id forecast_days base_demand trend_draws noise_draws
          temperature condition precipitation social_trends economic_data std_dev
          reply).predicted_demand + 49/25 * std_dev) := rfl
  refine ⟨hci, ?_, ?_⟩
  · rw [hci]
    exact max_le (by linarith) (by linarith)
  · rw [hci]
    exact le_max_left 0 _

/-- Witness for C4 at the constant-sales run (`base_demand = 10`, noises
`cNoises`): every sale is `10`, the population variance is `0`, `σ = 0`,
and the interval evaluates to `(209/20, 209/20)`. -/
theorem confidence_interval_formula_and_bounds_witness :
    ((0 : ℚ) ≤ 0 ∧
      (0 : ℚ) ^ 2 = popVariance ((generate_mock_sales_data "P1" 10 [] cNoises 30).map
        fun p => (p.sales : ℚ))) ∧
    (forecast_demand "P1" 7 10 [] cNoises 20 "cloudy" 0 socialZero econBase 0
      "").confidence_interval = (209/20, 209/20) ∧
    ((forecast_demand "P1" 7 10 [] cNoises 20 "cloudy" 0 socialZero econBase 0
        "").confidence_interval.1 ≤
      (forecast_demand "P1" 7 10 [] cNoises 20 "cloudy" 0 socialZero econBase 0
        "").confidence_interval.2 ∧
      0 ≤ (forecast_demand "P1" 7 10 [] cNoises 20 "cloudy" 0 socialZero econBase 0
        "").confidence_interval.1) := by
  have hvar : (0 : ℚ) ^ 2 = popVariance ((generate_mock_sales_data "P1" 10 [] cNoises
      30).map fun p => (p.sales : ℚ)) := by
    with_unfolding_all rfl
  refine ⟨⟨le_refl 0, hvar⟩, by with_unfolding_all rfl, ?_⟩
  exact (confidence_interval_formula_and_bounds "P1" 7 10 [] cNoises 20 "cloudy" 0
    socialZero econBase 0 "" (le_refl 0) (le_refl 0) (le_refl 0) (le_refl 0) (le_refl 0)
    (by norm_num [econBase]) (le_refl 0) hvar).2

/-- Claim C9: request validation.  (a) `POST /forecast` with a missing or
empty `product_id` returns HTTP 400 with error `"product_id is required"`
regardless of the engine (i.e. without invoking the forecasting engine);
(b) `POST /inventory/recommendations` with a missing or empty `products`
list returns HTTP 400; (c) entries that lack a truthy `product_id` are
silently skipped: filtering them out of the list does not change the
batch outcome at all; in particular (d) a non-empty list all of whose
entries lack `product_id` yields HTTP 200 with an empty recommendations
list and no error. -/
theorem endpoint_request_validation :
    (∀ (engine : String → ℤ → Except String DemandForecast) (body : ForecastRequest),
      body.product_id = none ∨ body.product_id = some "" →
      generate_forecast engine body = .err 400 "product_id is required") ∧
    (∀ (process : String → ℤ → Except String InventoryRecommendation)
        (body : RecommendationsRequest),
      body.products = none ∨ body.products = some [] →
      get_inventory_recommendations process body = .err 400 "products list is required") ∧
    (∀ (process : String → ℤ → Except String InventoryRecommendation)
        (ps : List ProductEntry),
      processAll process ps = processAll process (ps.filter fun p => pyTruthy p.product_id)) ∧
    (∀ (process : String → ℤ → Except String InventoryRecommendation)
        (ps : List ProductEntry),
      ps ≠ [] → (∀ p ∈ ps, pyTruthy p.product_id = false) →
      get_inventory_recommendations process ⟨some ps⟩ = .ok []) := by
  have hfilter : ∀ (process : String → ℤ → Except String InventoryRecommendation)
      (ps : List ProductEntry),
      processAll process ps = processAll process (ps.filter fun p => pyTruthy p.product_id) := by
    intro process ps
    induction ps with
    | nil => rfl
    | cons p ps ih =>
      rw [List.filter_cons]
      by_cases h : pyTruthy p.product_id
      · rw [if_pos h]
        show (if pyTruthy p.product_id then _ else _) =
          (if pyTruthy p.product_id then _ else _)
        rw [if_pos h, if_pos h]
        cases process (p.product_id.getD "") (p.current_stock.getD 0) with
        | error e => rfl
        | ok r => rw [ih]
      · rw [if_neg h]
        show (if pyTruthy p.product_id then _ else _) = _
        rw [if_neg h]
        exact ih
  refine ⟨?_, ?_, hfilter, ?_⟩
  · intro engine body h
    obtain ⟨pid, fdays⟩ := body
    rcases h with h | h <;> (simp only at h; subst h; rfl)
  · intro process body h
    obtain ⟨prods⟩ := body
    rcases h with h | h <;> (simp only at h; subst h; rfl)
  · intro process ps hne hall
    have hempty : (ps.filter fun p => pyTruthy p.product_id) = [] :=
      List.filter_eq_nil_iff.mpr (fun p hp => by rw [hall p hp]; exact Bool.false_ne_true)
    have hps : processAll process ps = .ok [] := by
      rw [hfilter process ps, hempty]
      rfl
    show (if ps.isEmpty then RecommendationsResponse.err 400 "products list is required"
      else match processAll process ps with
        | .ok recommendations => RecommendationsResponse.ok recommendations
        | .error e => RecommendationsResponse.err 500 e) = RecommendationsResponse.ok []
    rw [if_neg (fun hcontra => hne (List.isEmpty_iff.mp hcontra)), hps]

/-- Witness for C9: a missing `product_id` yields 400 even for a failing
engine; an empty `products` list yields 400; a singleton list whose entry
lacks `product_id` yields 200 with no recommendations and no error. -/
theorem endpoint_request_validation_witness :
    generate_forecast engineFail ⟨none, none⟩ = .err 400 "product_id is required" ∧
    generate_forecast engineFail ⟨some "", some 7⟩ = .err 400 "product_id is required" ∧
    get_inventory_recommendations processFail ⟨some []⟩ =
      .err 400 "products list is required" ∧
    get_inventory_recommendations processFail ⟨some [⟨none, some 4⟩]⟩ = .ok [] := by
  refine ⟨endpoint_request_validation.1 engineFail ⟨none, none⟩ (Or.inl rfl),
    endpoint_request_validation.1 engineFail ⟨some "", some 7⟩ (Or.inr rfl),
    endpoint_request_validation.2.1 processFail ⟨some []⟩ (Or.inr rfl),
    endpoint_request_validation.2.2.2 processFail [⟨none, some 4⟩]
      (by simp) ?_⟩
  intro p hp
  rw [List.mem_singleton] at hp
  subst hp
  rfl

end InventoryAgentService
